import Mathlib

/-!
# ai-workbench: verification of the workspace-to-change pipeline and chat provider

This file shallowly embeds two parts of the ai-workbench repository:

* the frontend chat state container (`frontend/app/providers/chat-provider.tsx`):
  its state record, action type, reducer, and the `runChat` / `sendMessage`
  actions, translated directly from the TypeScript source;
* the backend workspace-to-change pipeline (ContentHasher, WorkspaceIndexer,
  SnapshotBuilder, DiffEngine, PipelineOrchestrator).  The repository contains
  only design documents for this pipeline (backend/docs, the API and workflow
  specifications), no implementation, so these definitions are modelled from
  the specification text and are marked as such in their doc comments.

Effects are made explicit: HTTP calls are recorded as a boolean in the result
of an action, the nondeterministic message ids of `crypto.randomUUID()` are
parameters, and the file-access collaborator is a function argument.
-/

namespace AIWorkbench

/-! ## Shared data model (frontend `chat-provider.tsx`, mirrored 1:1 from the backend design) -/

/-- `SnapshotFile` from `chat-provider.tsx`: one file of a snapshot. -/
structure SnapshotFile where
  path : String
  content : String
deriving DecidableEq

/-- `Snapshot` from `chat-provider.tsx`. -/
structure Snapshot where
  project_id : String
  files : List SnapshotFile
deriving DecidableEq

/-- The `"user" | "assistant"` union of `ChatMessage.role`. -/
inductive Role where
  | user
  | assistant
deriving DecidableEq

/-- `ChatMessage` from `chat-provider.tsx`. -/
structure ChatMessage where
  id : String
  role : Role
  content : String
deriving DecidableEq

/-- `DiffFile` from `chat-provider.tsx`: a whole-file before/after pair. -/
structure DiffFile where
  path : String
  before : String
  after : String
deriving DecidableEq

/-- `Diff` from `chat-provider.tsx`. -/
structure Diff where
  project_id : String
  files : List DiffFile
deriving DecidableEq

/-! ## Frontend chat provider state machine -/

/-- `ChatState` from `chat-provider.tsx`: the whole provider state. -/
structure ChatState where
  snapshot : Option Snapshot
  diff : Option Diff
  messages : List ChatMessage
  isLoading : Bool
  error : Option String
deriving DecidableEq

/-- `initialState` from `chat-provider.tsx`. -/
def initialState : ChatState :=
  { snapshot := none, diff := none, messages := [], isLoading := false, error := none }

/-- `ChatAction` from `chat-provider.tsx`.  `REQUEST_SUCCESS` carries a `Diff`
(non-nullable in the declared TypeScript action type). -/
inductive ChatAction where
  | setSnapshot (snapshot : Snapshot)
  | requestStart
  | requestSuccess (diff : Diff)
  | requestError (error : String)
  | reset
  | addMessage (message : ChatMessage)
  | clearMessages
deriving DecidableEq

/-- `chatReducer` from `chat-provider.tsx`, the single point of state
transition; each branch is a direct translation of the corresponding
`case` of the TypeScript `switch`. -/
def chatReducer (state : ChatState) (action : ChatAction) : ChatState :=
  match action with
  | .setSnapshot s => { state with snapshot := some s }
  | .requestStart => { state with isLoading := true, error := none }
  | .requestSuccess d => { state with isLoading := false, diff := some d }
  | .requestError e => { state with isLoading := false, error := some e }
  | .addMessage m => { state with messages := state.messages ++ [m] }
  | .clearMessages => { state with messages := [] }
  | .reset => initialState

/-- Outcome of the `fetch("/api/chat/snapshot", ...)` call in `runChat`:
either the parsed response diff, or the thrown/caught error message. -/
inductive FetchOutcome where
  | success (diff : Diff)
  | failure (message : String)
deriving DecidableEq

/-- `runChat` from `chat-provider.tsx`.  The second component of the result
records whether the HTTP request to `/api/chat/snapshot` was issued.
When `state.snapshot` is null the function dispatches
`REQUEST_ERROR "Snapshot is not set"` and returns without fetching;
otherwise it dispatches `REQUEST_START`, performs the fetch, and dispatches
`REQUEST_SUCCESS` or `REQUEST_ERROR` according to the outcome. -/
def runChat (state : ChatState) (outcome : FetchOutcome) : ChatState × Bool :=
  match state.snapshot with
  | none => (chatReducer state (.requestError "Snapshot is not set"), false)
  | some _ =>
    let started := chatReducer state .requestStart
    match outcome with
    | .success d => (chatReducer started (.requestSuccess d), true)
    | .failure m => (chatReducer started (.requestError m), true)

/-- `sendMessage` from `chat-provider.tsx`: dispatches `ADD_MESSAGE` for the
user message, then `ADD_MESSAGE` for the fixed assistant reply
`"OK, received."`.  The ids produced by `crypto.randomUUID()` are passed as
parameters; the boolean records that no backend HTTP call is made. -/
def sendMessage (state : ChatState) (userId assistantId : String) (content : String) :
    ChatState × Bool :=
  let afterUser := chatReducer state (.addMessage { id := userId, role := .user, content := content })
  (chatReducer afterUser
    (.addMessage { id := assistantId, role := .assistant, content := "OK, received." }), false)

/-! ## Pipeline data model

Modelled from the spec: the pipeline itself (ContentHasher, WorkspaceIndexer,
SnapshotBuilder, DiffEngine, PipelineOrchestrator) is described in the
repository's design documents but not implemented in code. -/

/-- Hash over a file's characters, structurally recursive so that it is
kernel-computable.  Modelled from the spec: ContentHasher computes a stable
(deterministic) content fingerprint per file; the concrete digest function is
unspecified, only its determinism matters to the pipeline. -/
def hashChars : List Char → Nat
  | [] => 5381
  | c :: cs => (hashChars cs * 31 + c.toNat) % (2 ^ 64)

/-- Modelled from the spec: the content hash used for change detection. -/
def hashContent (s : String) : Nat := hashChars s.data

/-- Modelled from the spec: `FileEntry` of a `WorkspaceIndex` — path,
nullable language, content hash, and statically derived lists. -/
structure FileEntry where
  path : String
  language : Option String
  hash : Nat
  imports : List String
  exports : List String
  dependencies : List String
deriving DecidableEq

/-- Modelled from the spec: `WorkspaceIndex` — project id, monotonically
increasing version, and the set of `FileEntry` (no file content). -/
structure WorkspaceIndex where
  project_id : String
  index_version : Nat
  files : List FileEntry
deriving DecidableEq

/-- Modelled from the spec: result of static import/export/dependency
extraction for one file. -/
structure Extraction where
  imports : List String
  exports : List String
  dependencies : List String
deriving DecidableEq

/-- Modelled from the spec: the safe no-op fallback extraction for
unrecognized languages. -/
def noExtraction : Extraction := { imports := [], exports := [], dependencies := [] }

/-- Modelled from the spec: one input file handed to the WorkspaceIndexer by
the file-access collaborator — path, raw content, language hint. -/
structure RawFile where
  path : String
  content : String
  language : Option String
deriving DecidableEq

/-- Modelled from the spec: the pipeline error taxonomy of §7.  Each error
carries the raw internal detail text, so that non-leaking of that text
through the orchestrator is expressible. -/
inductive PipelineError where
  | invalidPath (detail : String)
  | indexBuild (detail : String)
  | unknownPath (detail : String)
  | staleIndex (detail : String)
  | outOfScopeEdit (detail : String)
  | decisionTimeout (detail : String)
  | decisionUnavailable (detail : String)
deriving DecidableEq

/-- Splits a character list at `/` separators (structurally recursive path
segmentation, used instead of `String.splitOn` so that it reduces in the
kernel). -/
def splitSegs : List Char → List (List Char)
  | [] => [[]]
  | c :: cs =>
    let rest := splitSegs cs
    if c = '/' then [] :: rest
    else
      match rest with
      | [] => [[c]]
      | s :: ss => (c :: s) :: ss

/-- Modelled from the spec: a path is valid when it is project-root-relative
and normalized — forward-slash separated, with no empty segment (which also
rejects absolute paths), no `.` segment and no `..` (parent traversal)
segment. -/
def isValidPath (p : String) : Bool :=
  (splitSegs p.data).all fun s => !(s.isEmpty || s == ['.'] || s == ['.', '.'])

/-! ## WorkspaceIndexer -/

/-- Modelled from the spec: language-keyed pluggable extraction with a no-op
fallback for unregistered or missing languages. -/
def extractFor (extractors : List (String × (String → Extraction)))
    (lang : Option String) (content : String) : Extraction :=
  match lang with
  | none => noExtraction
  | some l =>
    match extractors.find? (fun e => e.1 == l) with
    | none => noExtraction
    | some e => e.2 content

/-- Modelled from the spec: the `FileEntry` derived for one input file —
hash of the raw content plus static extraction. -/
def indexEntry (extractors : List (String × (String → Extraction))) (f : RawFile) : FileEntry :=
  let ex := extractFor extractors f.language f.content
  { path := f.path, language := f.language, hash := hashContent f.content,
    imports := ex.imports, exports := ex.exports, dependencies := ex.dependencies }

namespace WorkspaceIndexer

/-- Modelled from the spec: `WorkspaceIndexer.build(projectId, fileList)`.
Rejects any invalid path with `InvalidPathError`; otherwise derives one
`FileEntry` per input file and issues a version strictly greater than the
previously issued one (monotonic counter). -/
def build (extractors : List (String × (String → Extraction))) (prevVersion : Nat)
    (projectId : String) (fileList : List RawFile) : Except PipelineError WorkspaceIndex :=
  match fileList.find? (fun f => !isValidPath f.path) with
  | some f => .error (.invalidPath f.path)
  | none =>
    .ok { project_id := projectId, index_version := prevVersion + 1,
          files := fileList.map (indexEntry extractors) }

end WorkspaceIndexer

/-! ## SnapshotBuilder -/

/-- Lookup of a path in an index's file set (sets are keyed by path). -/
def lookupEntry (files : List FileEntry) (p : String) : Option FileEntry :=
  files.find? (fun e => e.path == p)

/-- Lookup of a path in a snapshot's file set. -/
def lookupSnapshot (files : List SnapshotFile) (p : String) : Option SnapshotFile :=
  files.find? (fun f => f.path == p)

namespace SnapshotBuilder

/-- Modelled from the spec: the per-path loop of `SnapshotBuilder.build`.
For each selected path: fail with `UnknownPathError` if it is absent from the
index; fetch current content via the file-access collaborator; fail with
`StaleIndexError` if the content hash no longer matches the recorded hash;
otherwise include the full content. -/
def buildFiles (files : List FileEntry) (fetch : String → String) :
    List String → Except PipelineError (List SnapshotFile)
  | [] => .ok []
  | p :: ps =>
    match lookupEntry files p with
    | none => .error (.unknownPath p)
    | some e =>
      if hashContent (fetch p) = e.hash then
        match buildFiles files fetch ps with
        | .ok rest => .ok ({ path := p, content := fetch p } :: rest)
        | .error err => .error err
      else .error (.staleIndex p)

/-- Modelled from the spec: `SnapshotBuilder.build(index, targetPaths?)` with
the file-access collaborator as the `fetch` argument.  A null `targetPaths`
selects all paths of the index. -/
def build (index : WorkspaceIndex) (targetPaths : Option (List String))
    (fetch : String → String) : Except PipelineError Snapshot :=
  let selected := targetPaths.getD (index.files.map FileEntry.path)
  match buildFiles index.files fetch selected with
  | .ok fs => .ok { project_id := index.project_id, files := fs }
  | .error e => .error e

end SnapshotBuilder

/-! ## DiffEngine -/

namespace DiffEngine

/-- Modelled from the spec: the per-path loop of `DiffEngine.build`.  For
each path of `afterContents`: fail with `OutOfScopeEditError` if the path is
absent from the snapshot; otherwise build the whole-file before/after pair,
skipping entries where before equals after. -/
def buildFiles (snapFiles : List SnapshotFile) :
    List (String × String) → Except PipelineError (List DiffFile)
  | [] => .ok []
  | (p, proposed) :: rest =>
    match lookupSnapshot snapFiles p with
    | none => .error (.outOfScopeEdit p)
    | some sf =>
      match buildFiles snapFiles rest with
      | .error e => .error e
      | .ok others =>
        if sf.content = proposed then .ok others
        else .ok ({ path := p, before := sf.content, after := proposed } :: others)

/-- Modelled from the spec: `DiffEngine.build(snapshot, afterContents)`,
deterministic, whole-file replace only. -/
def build (snapshot : Snapshot) (afterContents : List (String × String)) :
    Except PipelineError Diff :=
  match buildFiles snapshot.files afterContents with
  | .ok fs => .ok { project_id := snapshot.project_id, files := fs }
  | .error e => .error e

end DiffEngine

/-! ## PipelineOrchestrator -/

/-- Modelled from the spec: the caller-safe error classification of §7. -/
inductive ErrorKind where
  | invalidPath
  | indexBuild
  | unknownPath
  | staleIndex
  | outOfScopeEdit
  | decisionTimeout
  | decisionUnavailable
deriving DecidableEq

/-- The classification of an internal pipeline error, discarding its raw
detail text. -/
def kindOf : PipelineError → ErrorKind
  | .invalidPath _ => .invalidPath
  | .indexBuild _ => .indexBuild
  | .unknownPath _ => .unknownPath
  | .staleIndex _ => .staleIndex
  | .outOfScopeEdit _ => .outOfScopeEdit
  | .decisionTimeout _ => .decisionTimeout
  | .decisionUnavailable _ => .decisionUnavailable

/-- Modelled from the spec: the single generic, non-leaking failure
description surfaced to the caller on any pipeline failure. -/
def genericFailureMessage : String := "The request could not be completed."

/-- Modelled from the spec: what crosses the pipeline boundary on failure —
only an error-kind classification and a generic description, never the raw
internal exception text and never any partially built Snapshot or Diff. -/
structure CallerError where
  kind : ErrorKind
  message : String
deriving DecidableEq

/-- The orchestrator's `Errored` transition: discard the internal error's
detail, keep only its kind, and attach the fixed generic description. -/
def toCallerError (e : PipelineError) : CallerError :=
  { kind := kindOf e, message := genericFailureMessage }

/-- Modelled from the spec: the closed two-variant request mode union. -/
inductive Mode where
  | dev
  | casual
deriving DecidableEq

/-- Modelled from the spec: a `chat.run(projectId, mode, snapshot?, priorDiff?)`
request. -/
structure ChatRequest where
  project_id : String
  mode : Mode
  snapshot : Option Snapshot
  priorDiff : Option Diff
deriving DecidableEq

/-- Modelled from the spec: the `chat.run` result — messages plus a nullable
diff. -/
structure ChatRunResult where
  messages : List ChatMessage
  diff : Option Diff
deriving DecidableEq

/-- Modelled from the spec: the three pipeline components as collaborators of
the orchestrator, so that non-invocation in casual mode is expressible as
independence from this record. -/
structure PipelineComponents where
  indexer : Nat → String → List RawFile → Except PipelineError WorkspaceIndex
  snapshotBuilder : WorkspaceIndex → Option (List String) → Except PipelineError Snapshot
  diffEngine : Snapshot → List (String × String) → Except PipelineError Diff

/-- Modelled from the spec: the orchestrator's external collaborators — the
file-access state feeding the indexer, the previously issued index version,
the opaque decision process, and the opaque message-producing LLM call. -/
structure ExternalDeps where
  prevVersion : Nat
  fileList : List RawFile
  decide : Snapshot → Option Diff → Except PipelineError (List (String × String))
  respond : Mode → List ChatMessage

/-- The standard wiring of §2: indexer output feeds the SnapshotBuilder,
whose output feeds the DiffEngine, with a shared file-access collaborator. -/
def standardComponents (extractors : List (String × (String → Extraction)))
    (fetch : String → String) : PipelineComponents :=
  { indexer := fun prev pid fs => WorkspaceIndexer.build extractors prev pid fs,
    snapshotBuilder := fun idx targets => SnapshotBuilder.build idx targets fetch,
    diffEngine := fun snap ac => DiffEngine.build snap ac }

/-- Modelled from the spec: `chat.run` / the PipelineOrchestrator state
machine.  Casual mode completes directly with a null diff and touches no
pipeline component; dev mode sequences Index → Snapshot → external decision
→ Diff, and any component failure is caught at the `Errored` transition,
discarding all intermediate state and surfacing only `toCallerError`. -/
def chatRun (comps : PipelineComponents) (ext : ExternalDeps) (req : ChatRequest) :
    Except CallerError ChatRunResult :=
  match req.mode with
  | .casual => .ok { messages := ext.respond .casual, diff := none }
  | .dev =>
    match comps.indexer ext.prevVersion req.project_id ext.fileList with
    | .error e => .error (toCallerError e)
    | .ok idx =>
      match comps.snapshotBuilder idx none with
      | .error e => .error (toCallerError e)
      | .ok snap =>
        match ext.decide snap req.priorDiff with
        | .error e => .error (toCallerError e)
        | .ok mapping =>
          match comps.diffEngine snap mapping with
          | .error e => .error (toCallerError e)
          | .ok d => .ok { messages := ext.respond .dev, diff := some d }

/-! ## Concrete instances used by the witnesses -/

/-- A concrete chat state that holds a previously produced diff. -/
def savedDiffState : ChatState :=
  { snapshot := none, diff := some { project_id := "p1", files := [] },
    messages := [], isLoading := false, error := none }

/-- The standard pipeline wiring over an empty extractor registry and a
constant file-access collaborator. -/
def trivialComponents : PipelineComponents := standardComponents [] (fun _ => "")

/-- A second pipeline wiring, distinguishable from `trivialComponents`. -/
def altComponents : PipelineComponents := standardComponents [] (fun _ => "zzz")

/-- External collaborators that always succeed and answer nothing. -/
def noopExt : ExternalDeps :=
  { prevVersion := 0, fileList := [], decide := fun _ _ => .ok [],
    respond := fun _ => [] }

/-- External collaborators whose decision process times out with an internal
detail text. -/
def failingExt : ExternalDeps :=
  { prevVersion := 0, fileList := [],
    decide := fun _ _ => .error (.decisionTimeout "llm_service timeout after 30s at llm_service.py:120"),
    respond := fun _ => [] }

/-- A concrete casual-mode request carrying a snapshot. -/
def casualReq : ChatRequest :=
  { project_id := "p1", mode := .casual,
    snapshot := some { project_id := "p1", files := [{ path := "a.ts", content := "x" }] },
    priorDiff := none }

/-- A concrete dev-mode request. -/
def devReq : ChatRequest :=
  { project_id := "p1", mode := .dev, snapshot := none, priorDiff := none }

/-- A concrete input file. -/
def sampleRaw : RawFile := { path := "a.ts", content := "x", language := some "ts" }

/-- The index entry of scenario A/E: `a.ts` recorded with the hash of `"x"`. -/
def entryA : FileEntry :=
  { path := "a.ts", language := some "ts", hash := hashContent "x",
    imports := [], exports := [], dependencies := [] }

/-- A concrete one-file index. -/
def indexA : WorkspaceIndex := { project_id := "p1", index_version := 1, files := [entryA] }

/-- The index produced by the first concrete rebuild. -/
def idxA : WorkspaceIndex :=
  { project_id := "p1", index_version := 1, files := [indexEntry [] sampleRaw] }

/-- The index produced by the second concrete rebuild. -/
def idxB : WorkspaceIndex :=
  { project_id := "p1", index_version := 2, files := [indexEntry [] sampleRaw] }

/-- The snapshot of scenario B/C: one file `a.ts` with content `"x"`. -/
def snapA : Snapshot := { project_id := "p1", files := [{ path := "a.ts", content := "x" }] }

/-! ## Helper lemmas -/

/-- Successful snapshot construction returns exactly the selected paths, in
order. -/
theorem buildFiles_paths (files : List FileEntry) (fetch : String → String) :
    ∀ (sel : List String) (fs : List SnapshotFile),
      SnapshotBuilder.buildFiles files fetch sel = .ok fs →
      fs.map SnapshotFile.path = sel := by
  intro sel
  induction sel with
  | nil =>
    intro fs h
    injection h with h2
    subst h2
    rfl
  | cons p ps ih =>
    intro fs h
    unfold SnapshotBuilder.buildFiles at h
    split at h
    next => cases h
    next e he =>
      split at h
      next hh =>
        split at h
        next rest hr =>
          injection h with h2
          subst h2
          simpa using ih rest hr
        next err hr => cases h
      next hh => cases h

/-- Snapshot construction succeeds when every selected path is indexed and
its fetched content still matches the recorded hash. -/
theorem buildFiles_total (files : List FileEntry) (fetch : String → String) :
    ∀ sel : List String,
      (∀ p ∈ sel, ∃ e, lookupEntry files p = some e ∧ hashContent (fetch p) = e.hash) →
      ∃ fs, SnapshotBuilder.buildFiles files fetch sel = .ok fs := by
  intro sel
  induction sel with
  | nil => intro _; exact ⟨[], rfl⟩
  | cons p ps ih =>
    intro hall
    obtain ⟨e, he, hh⟩ := hall p (by simp)
    obtain ⟨rest, hrest⟩ := ih fun q hq => hall q (by simp [hq])
    refine ⟨{ path := p, content := fetch p } :: rest, ?_⟩
    simp [SnapshotBuilder.buildFiles, he, hh, hrest]

/-- When every selected path is indexed but some selected path's content has
drifted from its recorded hash, snapshot construction fails with a stale
index error. -/
theorem buildFiles_stale (files : List FileEntry) (fetch : String → String) :
    ∀ (sel : List String) (p : String) (e : FileEntry),
      (∀ q ∈ sel, lookupEntry files q ≠ none) →
      p ∈ sel → lookupEntry files p = some e → hashContent (fetch p) ≠ e.hash →
      ∃ q, SnapshotBuilder.buildFiles files fetch sel = .error (.staleIndex q) := by
  intro sel
  induction sel with
  | nil => intro p e _ hp; cases hp
  | cons r rs ih =>
    intro p e hall hp he hst
    cases her : lookupEntry files r with
    | none => exact absurd her (hall r (by simp))
    | some er =>
      by_cases hhr : hashContent (fetch r) = er.hash
      · rcases List.mem_cons.mp hp with h1 | h1
        · subst h1
          rw [he] at her
          injection her with h2
          subst h2
          exact absurd hhr hst
        · obtain ⟨q, hq⟩ := ih p e (fun q hq => hall q (by simp [hq])) h1 he hst
          refine ⟨q, ?_⟩
          simp [SnapshotBuilder.buildFiles, her, hhr, hq]
      · refine ⟨r, ?_⟩
        simp [SnapshotBuilder.buildFiles, her, hhr]

/-- A successfully built diff never contains an entry whose before equals its
after. -/
theorem diffFiles_nontrivial (snapFiles : List SnapshotFile) :
    ∀ (ac : List (String × String)) (fs : List DiffFile),
      DiffEngine.buildFiles snapFiles ac = .ok fs →
      ∀ df ∈ fs, df.before ≠ df.after := by
  intro ac
  induction ac with
  | nil =>
    intro fs h
    injection h with h2
    subst h2
    intro df hdf
    cases hdf
  | cons pc rest ih =>
    obtain ⟨p, proposed⟩ := pc
    intro fs h
    unfold DiffEngine.buildFiles at h
    split at h
    next => cases h
    next sf hl =>
      split at h
      next e hr => cases h
      next others hr =>
        split at h
        next hc =>
          injection h with h2
          subst h2
          exact ih others hr
        next hc =>
          injection h with h2
          subst h2
          intro df hdf
          rcases List.mem_cons.mp hdf with h3 | h3
          · subst h3; exact hc
          · exact ih others hr df h3

/-- Proposing, for a sublist of the snapshot's own files, exactly the
recorded contents yields an empty diff. -/
theorem diffFiles_roundtrip (snapFiles : List SnapshotFile) :
    ∀ l : List SnapshotFile,
      (∀ f ∈ l, ∃ g, lookupSnapshot snapFiles f.path = some g ∧ g.content = f.content) →
      DiffEngine.buildFiles snapFiles (l.map fun f => (f.path, f.content)) = .ok [] := by
  intro l
  induction l with
  | nil => intro _; rfl
  | cons f fs ih =>
    intro hall
    obtain ⟨g, hg, hc⟩ := hall f (by simp)
    have hrest := ih fun q hq => hall q (by simp [hq])
    rw [List.map_cons]
    simp [DiffEngine.buildFiles, hg, hrest, hc]

/-- With duplicate-free paths, looking a snapshot file's own path up in the
snapshot returns that file. -/
theorem lookupSnapshot_self (l : List SnapshotFile) :
    (l.map SnapshotFile.path).Nodup → ∀ f ∈ l, lookupSnapshot l f.path = some f := by
  induction l with
  | nil => intro _ f hf; cases hf
  | cons g gs ih =>
    intro hnd f hf
    rw [List.map_cons, List.nodup_cons] at hnd
    obtain ⟨hg, hnd2⟩ := hnd
    rcases List.mem_cons.mp hf with h1 | h1
    · subst h1
      unfold lookupSnapshot
      exact List.find?_cons_of_pos _ (by simp)
    · have hne : g.path ≠ f.path := by
        intro hEq
        exact hg (hEq ▸ List.mem_map_of_mem SnapshotFile.path h1)
      unfold lookupSnapshot
      rw [List.find?_cons_of_neg _ (by simp [hne])]
      exact ih hnd2 f h1

/-- Out-of-scope proposals make diff construction fail with an out-of-scope
edit error. -/
theorem diffFiles_out_of_scope (snapFiles : List SnapshotFile) :
    ∀ (ac : List (String × String)) (p c : String), (p, c) ∈ ac →
      lookupSnapshot snapFiles p = none →
      ∃ q, DiffEngine.buildFiles snapFiles ac = .error (.outOfScopeEdit q) := by
  intro ac
  induction ac with
  | nil => intro p c hp _; cases hp
  | cons pc rest ih =>
    obtain ⟨r, rc⟩ := pc
    intro p c hp habs
    rcases List.mem_cons.mp hp with h1 | h1
    · injection h1 with h1a h1b
      subst h1a
      refine ⟨p, ?_⟩
      simp [DiffEngine.buildFiles, habs]
    · cases hl : lookupSnapshot snapFiles r with
      | none =>
        refine ⟨r, ?_⟩
        simp [DiffEngine.buildFiles, hl]
      | some sf =>
        obtain ⟨q, hq⟩ := ih p c h1 habs
        refine ⟨q, ?_⟩
        simp [DiffEngine.buildFiles, hl, hq]

/-! ## Claims about the frontend chat provider -/

/-- C8: whenever `runChat` is called while the stored snapshot is null, no
HTTP request is made and the state moves to an error state with exactly the
message "Snapshot is not set", `isLoading` false, and all other fields
(snapshot, diff, messages) unchanged. -/
theorem runChat_noSnapshot (s : ChatState) (outcome : FetchOutcome)
    (h : s.snapshot = none) :
    runChat s outcome =
      ({ s with isLoading := false, error := some "Snapshot is not set" }, false) := by
  simp only [runChat, h, chatReducer]

/-- Witness for C8 at the initial state. -/
theorem runChat_noSnapshot_witness :
    runChat initialState (.failure "boom") =
      ({ initialState with isLoading := false, error := some "Snapshot is not set" }, false) :=
  runChat_noSnapshot initialState (.failure "boom") rfl

/-- C9: a `REQUEST_ERROR` transition leaves diff, snapshot and messages
untouched (a failed run keeps the last successful diff), and the only action
that takes a non-null diff back to null is `RESET`. -/
theorem chatReducer_requestError_frame (s : ChatState) (e : String) (a : ChatAction) :
    ((chatReducer s (.requestError e)).diff = s.diff ∧
      (chatReducer s (.requestError e)).snapshot = s.snapshot ∧
      (chatReducer s (.requestError e)).messages = s.messages) ∧
    ((chatReducer s a).diff = none → a = .reset ∨ s.diff = none) := by
  refine ⟨⟨rfl, rfl, rfl⟩, ?_⟩
  intro h
  cases a with
  | setSnapshot s2 => exact .inr h
  | requestStart => exact .inr h
  | requestSuccess d => simp [chatReducer] at h
  | requestError e2 => exact .inr h
  | reset => exact .inl rfl
  | addMessage m => exact .inr h
  | clearMessages => exact .inr h

/-- Witness for C9 at a state holding a diff. -/
theorem chatReducer_requestError_frame_witness :
    ((chatReducer savedDiffState (.requestError "boom")).diff = savedDiffState.diff ∧
      (chatReducer savedDiffState (.requestError "boom")).snapshot = savedDiffState.snapshot ∧
      (chatReducer savedDiffState (.requestError "boom")).messages = savedDiffState.messages) ∧
    (ChatAction.reset = ChatAction.reset ∨ savedDiffState.diff = none) :=
  ⟨(chatReducer_requestError_frame savedDiffState "boom" .reset).1,
    (chatReducer_requestError_frame savedDiffState "boom" .reset).2 rfl⟩

/-- C10: `sendMessage` appends exactly two messages — the user message with
the given content, then the fixed assistant reply "OK, received." — makes no
backend call, and leaves snapshot, diff, isLoading and error unchanged. -/
theorem sendMessage_appends (s : ChatState) (uid aid content : String)
    (h : content ≠ "") :
    (sendMessage s uid aid content).1.messages =
      s.messages ++ [{ id := uid, role := .user, content := content },
        { id := aid, role := .assistant, content := "OK, received." }] ∧
    (sendMessage s uid aid content).1.snapshot = s.snapshot ∧
    (sendMessage s uid aid content).1.diff = s.diff ∧
    (sendMessage s uid aid content).1.isLoading = s.isLoading ∧
    (sendMessage s uid aid content).1.error = s.error ∧
    (sendMessage s uid aid content).2 = false := by
  refine ⟨?_, rfl, rfl, rfl, rfl, rfl⟩
  simp [sendMessage, chatReducer]

/-- Witness for C10 with a concrete non-empty message. -/
theorem sendMessage_appends_witness :
    (sendMessage initialState "u1" "a1" "hello").1.messages =
      initialState.messages ++ [{ id := "u1", role := .user, content := "hello" },
        { id := "a1", role := .assistant, content := "OK, received." }] ∧
    (sendMessage initialState "u1" "a1" "hello").1.snapshot = initialState.snapshot ∧
    (sendMessage initialState "u1" "a1" "hello").1.diff = initialState.diff ∧
    (sendMessage initialState "u1" "a1" "hello").1.isLoading = initialState.isLoading ∧
    (sendMessage initialState "u1" "a1" "hello").1.error = initialState.error ∧
    (sendMessage initialState "u1" "a1" "hello").2 = false :=
  sendMessage_appends initialState "u1" "a1" "hello" (by decide)

/-! ## Claims about the pipeline (spec-modelled) -/

/-- C1: a casual-mode `chat.run` completes with a null diff (never an empty
`Diff`), whatever snapshot is supplied, and its result does not depend on the
WorkspaceIndexer / SnapshotBuilder / DiffEngine components — they are never
invoked. -/
theorem chatRun_casual_null_diff (comps comps' : PipelineComponents)
    (ext : ExternalDeps) (req : ChatRequest) (h : req.mode = .casual) :
    chatRun comps ext req = .ok { messages := ext.respond .casual, diff := none } ∧
    chatRun comps ext req = chatRun comps' ext req := by
  constructor
  · simp only [chatRun, h]
  · simp only [chatRun, h]

/-- Witness for C1: a concrete casual request with a snapshot supplied, run
against two different pipeline wirings. -/
theorem chatRun_casual_null_diff_witness :
    chatRun trivialComponents noopExt casualReq =
      .ok { messages := noopExt.respond .casual, diff := none } ∧
    chatRun trivialComponents noopExt casualReq = chatRun altComponents noopExt casualReq :=
  chatRun_casual_null_diff trivialComponents altComponents noopExt casualReq rfl

/-- C2: a snapshot built with target paths `P` (each present in the index)
contains exactly the paths `P` — whenever a snapshot is returned its path
list is `P`, and when additionally every fetched content matches the recorded
hash a snapshot is returned. -/
theorem snapshotBuilder_exact_paths (index : WorkspaceIndex) (targets : List String)
    (fetch : String → String) :
    (∀ snap, SnapshotBuilder.build index (some targets) fetch = .ok snap →
      snap.files.map SnapshotFile.path = targets) ∧
    ((∀ p ∈ targets, ∃ e, lookupEntry index.files p = some e ∧
        hashContent (fetch p) = e.hash) →
      ∃ snap, SnapshotBuilder.build index (some targets) fetch = .ok snap ∧
        snap.files.map SnapshotFile.path = targets) := by
  constructor
  · intro snap h
    simp only [SnapshotBuilder.build, Option.getD_some] at h
    split at h
    next fs hb =>
      injection h with h2
      subst h2
      exact buildFiles_paths index.files fetch targets fs hb
    next e hb => cases h
  · intro hfresh
    obtain ⟨fs, hfs⟩ := buildFiles_total index.files fetch targets hfresh
    refine ⟨{ project_id := index.project_id, files := fs }, ?_,
      buildFiles_paths index.files fetch targets fs hfs⟩
    unfold SnapshotBuilder.build
    rw [Option.getD_some]
    simp [hfs]

/-- Witness for C2 at a one-file index, scenario A. -/
theorem snapshotBuilder_exact_paths_witness :
    ∃ snap, SnapshotBuilder.build indexA (some ["a.ts"]) (fun _ => "x") = .ok snap ∧
      snap.files.map SnapshotFile.path = ["a.ts"] :=
  (snapshotBuilder_exact_paths indexA ["a.ts"] (fun _ => "x")).2 (by
    intro p hp
    rw [List.mem_singleton] at hp
    subst hp
    exact ⟨entryA, rfl, rfl⟩)

/-- C3: a successfully built diff never contains an entry whose before equals
its after; in particular proposing back exactly the snapshot's recorded
contents yields a diff with zero entries. -/
theorem diffEngine_no_noop_entries (snap : Snapshot) :
    (∀ (ac : List (String × String)) (d : Diff), DiffEngine.build snap ac = .ok d →
      ∀ df ∈ d.files, df.before ≠ df.after) ∧
    ((snap.files.map SnapshotFile.path).Nodup →
      DiffEngine.build snap (snap.files.map fun f => (f.path, f.content)) =
        .ok { project_id := snap.project_id, files := [] }) := by
  constructor
  · intro ac d h
    unfold DiffEngine.build at h
    split at h
    next fs hb =>
      injection h with h2
      subst h2
      exact diffFiles_nontrivial snap.files ac fs hb
    next e hb => cases h
  · intro hnd
    have h := diffFiles_roundtrip snap.files snap.files
      fun f hf => ⟨f, lookupSnapshot_self snap.files hnd f hf, rfl⟩
    unfold DiffEngine.build
    simp [h]

/-- Witness for C3: scenario C's snapshot; a real change yields a nontrivial
entry and the no-change proposal yields the empty diff. -/
theorem diffEngine_no_noop_entries_witness :
    ({ path := "a.ts", before := "x", after := "y" } : DiffFile).before ≠
      ({ path := "a.ts", before := "x", after := "y" } : DiffFile).after ∧
    DiffEngine.build snapA (snapA.files.map fun f => (f.path, f.content)) =
      .ok { project_id := snapA.project_id, files := [] } :=
  ⟨(diffEngine_no_noop_entries snapA).1 [("a.ts", "y")]
      { project_id := "p1", files := [{ path := "a.ts", before := "x", after := "y" }] } rfl
      { path := "a.ts", before := "x", after := "y" } (List.mem_singleton.mpr rfl),
    (diffEngine_no_noop_entries snapA).2 (by decide)⟩

/-- C4: when some proposed path is absent from the snapshot, the diff build
fails with an out-of-scope edit error instead of producing a diff. -/
theorem diffEngine_out_of_scope (snap : Snapshot) (afterContents : List (String × String))
    (p c : String) (hp : (p, c) ∈ afterContents)
    (habs : lookupSnapshot snap.files p = none) :
    ∃ q, DiffEngine.build snap afterContents = .error (.outOfScopeEdit q) := by
  obtain ⟨q, hq⟩ := diffFiles_out_of_scope snap.files afterContents p c hp habs
  refine ⟨q, ?_⟩
  unfold DiffEngine.build
  simp [hq]

/-- Witness for C4: scenario B — `b.ts` was never shown to the decision
process. -/
theorem diffEngine_out_of_scope_witness :
    ∃ q, DiffEngine.build snapA [("a.ts", "y"), ("b.ts", "z")] =
      .error (.outOfScopeEdit q) :=
  diffEngine_out_of_scope snapA [("a.ts", "y"), ("b.ts", "z")] "b.ts" "z"
    (by decide) rfl

/-- C5: when every selected path is indexed but some selected path's current
content no longer matches the hash recorded in the index, the snapshot build
fails with a stale index error instead of returning a snapshot containing
that file. -/
theorem snapshotBuilder_stale (index : WorkspaceIndex) (targets : List String)
    (fetch : String → String) (p : String) (e : FileEntry)
    (hall : ∀ q ∈ targets, lookupEntry index.files q ≠ none)
    (hp : p ∈ targets) (he : lookupEntry index.files p = some e)
    (hstale : hashContent (fetch p) ≠ e.hash) :
    ∃ q, SnapshotBuilder.build index (some targets) fetch = .error (.staleIndex q) := by
  obtain ⟨q, hq⟩ := buildFiles_stale index.files fetch targets p e hall hp he hstale
  refine ⟨q, ?_⟩
  unfold SnapshotBuilder.build
  rw [Option.getD_some]
  simp [hq]

/-- Witness for C5: scenario E — `a.ts` was indexed with the hash of "x" but
now reads "y". -/
theorem snapshotBuilder_stale_witness :
    ∃ q, SnapshotBuilder.build indexA (some ["a.ts"]) (fun _ => "y") =
      .error (.staleIndex q) :=
  snapshotBuilder_stale indexA ["a.ts"] (fun _ => "y") "a.ts" entryA
    (by intro q hq; rw [List.mem_singleton] at hq; subst hq; decide)
    (List.mem_singleton.mpr rfl) rfl (by decide)

/-- C6: rebuilding the index twice from the same file set yields entrywise
identical hashes and a strictly larger second version. -/
theorem workspaceIndexer_rebuild (extractors : List (String × (String → Extraction)))
    (pid : String) (files : List RawFile) (prev : Nat) (idx1 idx2 : WorkspaceIndex)
    (h1 : WorkspaceIndexer.build extractors prev pid files = .ok idx1)
    (h2 : WorkspaceIndexer.build extractors idx1.index_version pid files = .ok idx2) :
    idx1.files.map FileEntry.hash = idx2.files.map FileEntry.hash ∧
    idx1.index_version < idx2.index_version := by
  unfold WorkspaceIndexer.build at h1 h2
  split at h1
  next f hf => cases h1
  next hf =>
    split at h2
    next f2 hf2 => cases h2
    next hf2 =>
      injection h1 with h1e
      injection h2 with h2e
      subst h1e
      subst h2e
      exact ⟨rfl, Nat.lt_succ_self _⟩

/-- Witness for C6 at a concrete one-file project. -/
theorem workspaceIndexer_rebuild_witness :
    idxA.files.map FileEntry.hash = idxB.files.map FileEntry.hash ∧
    idxA.index_version < idxB.index_version :=
  workspaceIndexer_rebuild [] "p1" [sampleRaw] 0 idxA idxB rfl rfl

/-- C7: whatever pipeline stage fails, the caller sees only the fixed generic
failure description together with an error-kind classification; the caller
error is a function of the error kind alone, so no internal detail text
crosses the boundary, and the error result carries no snapshot or diff. -/
theorem chatRun_error_non_leaking (comps : PipelineComponents) (ext : ExternalDeps)
    (req : ChatRequest) (ce : CallerError)
    (h : chatRun comps ext req = .error ce) :
    ce.message = genericFailureMessage ∧
    ∀ e e' : PipelineError, kindOf e = kindOf e' → toCallerError e = toCallerError e' := by
  constructor
  · unfold chatRun at h
    split at h
    · cases h
    · split at h
      next e he => injection h with h2; subst h2; rfl
      next idx hidx =>
        split at h
        next e he => injection h with h2; subst h2; rfl
        next snap hsnap =>
          split at h
          next e he => injection h with h2; subst h2; rfl
          next mapping hmap =>
            split at h
            next e he => injection h with h2; subst h2; rfl
            next d hd => cases h
  · intro e e' hk
    simp [toCallerError, hk]

/-- Witness for C7: a concrete dev run whose decision call times out with an
internal detail text; the surfaced error is generic. -/
theorem chatRun_error_non_leaking_witness :
    ({ kind := .decisionTimeout, message := genericFailureMessage } : CallerError).message =
      genericFailureMessage ∧
    ∀ e e' : PipelineError, kindOf e = kindOf e' → toCallerError e = toCallerError e' :=
  chatRun_error_non_leaking trivialComponents failingExt devReq
    { kind := .decisionTimeout, message := genericFailureMessage } rfl

end AIWorkbench
